import Mathlib

/-!
Verification of the orchestration engine of a multi-agent RAG + weather
assistant: the index cache gate (fingerprinting, descriptor validation,
build/rebuild), the question router, the workflow dispatch, and the
weather intent handler.  Python sources are modelled as executable Lean
functions; external collaborators (LLM classifier, context summarizer,
location extractor, weather API, PDF loader, retriever, generator) are
passed in as explicit values or functions, mirroring the call sites.
-/

set_option maxRecDepth 4000
set_option maxHeartbeats 1000000

namespace MultiAgent

/-! ## String helpers modelling Python primitives -/

/-- Python `str.lower()`: lowercase every character. -/
def lowerStr (s : String) : String := String.mk (s.data.map Char.toLower)

/-- Python `str.upper()`: uppercase every character. -/
def upperStr (s : String) : String := String.mk (s.data.map Char.toUpper)

/-- Python `str.strip()`: drop leading and trailing whitespace. -/
def stripStr (s : String) : String :=
  String.mk (((s.data.dropWhile Char.isWhitespace).reverse.dropWhile Char.isWhitespace).reverse)

/-- Python `str.title()` on a character list: a letter is uppercased when the
previous character is not alphabetic, lowercased otherwise. -/
def titleChars : Bool → List Char → List Char
  | _, [] => []
  | prevAlpha, c :: rest =>
    (if prevAlpha then c.toLower else c.toUpper) :: titleChars c.isAlpha rest

/-- Python `str.title()`. -/
def titleStr (s : String) : String := String.mk (titleChars false s.data)

/-- `leadsWith needle hay`: `hay` starts with `needle`. -/
def leadsWith : List Char → List Char → Bool
  | [], _ => true
  | _ :: _, [] => false
  | a :: as, b :: bs => a == b && leadsWith as bs

/-- Python `needle in hay`: contiguous-substring containment. -/
def hasSub (needle : List Char) : List Char → Bool
  | [] => needle.isEmpty
  | c :: rest => leadsWith needle (c :: rest) || hasSub needle rest

/-- Python `x in list` membership for strings. -/
def memStr (x : String) (l : List String) : Bool := l.any (fun y => x == y)

/-- Python truthiness of an optional string: `None` and `""` are falsy. -/
def optStrTruthy : Option String → Bool
  | none => false
  | some s => !(s == "")

/-! ## Fingerprint Service (`helper.file_fingerprint`) -/

/-- The dict returned by `file_fingerprint`, and the shape of the per-path
`.cache_<md5>.json` file. -/
structure Fingerprint where
  sha256 : String
  size : Nat
  mtime : Int
  quick_key : String
deriving DecidableEq, Repr

/-- The quick key `f"{stat.st_size}_{int(stat.st_mtime)}"`. -/
def quickKey (size : Nat) (mtime : Int) : String :=
  toString size ++ "_" ++ toString mtime

/-- The on-disk document as `file_fingerprint` observes it: current content
bytes, `st_size`, `int(st_mtime)`, and the parse result of the per-path
fingerprint cache file (`none` when the file is absent or unreadable,
matching the `except: pass` fallthrough). -/
structure FileState where
  content : List Nat
  size : Nat
  mtime : Int
  cache : Option Fingerprint
deriving DecidableEq, Repr

/-- The freshly computed fingerprint: hash of the current bytes plus the
stat metadata (the no-cache path of `file_fingerprint`). -/
def freshFingerprint (hash : List Nat → String) (f : FileState) : Fingerprint :=
  { sha256 := hash f.content, size := f.size, mtime := f.mtime,
    quick_key := quickKey f.size f.mtime }

/-- `helper.file_fingerprint`: when the cached entry's `quick_key` equals the
current `size_mtime` quick key the cached dict is returned as-is; otherwise
the content is rehashed.  `hash` abstracts `hashlib.sha256(...).hexdigest()`. -/
def file_fingerprint (hash : List Nat → String) (f : FileState) : Fingerprint :=
  let qk := quickKey f.size f.mtime
  match f.cache with
  | some cached => if cached.quick_key = qk then cached else freshFingerprint hash f
  | none => freshFingerprint hash f

/-- The cache-file write performed on the rehash path of `file_fingerprint`
(writing back the value just returned; on the cached path the stored value
already equals the result). -/
def file_fingerprint_step (hash : List Nat → String) (f : FileState) :
    Fingerprint × FileState :=
  let fp := file_fingerprint hash f
  (fp, { f with cache := some fp })

/-! ## Index descriptor and store (`helper.save_metadata` / `load_metadata`,
Qdrant collections) -/

/-- The persisted `meta.json` record (`get_index_metadata`, plus the
`collection_name` key added by `build_index_node`). -/
structure Meta where
  pdf_fingerprint : Fingerprint
  chunk_size : Nat
  chunk_overlap : Nat
  embedding_model : String
  format : String
  collection_name : Option String
deriving DecidableEq, Repr

/-- `helper.get_index_metadata`. -/
def get_index_metadata (hash : List Nat → String) (f : FileState)
    (cs co : Nat) (em : String) : Meta :=
  { pdf_fingerprint := file_fingerprint hash f, chunk_size := cs,
    chunk_overlap := co, embedding_model := em, format := "v2",
    collection_name := none }

instance exceptDecEq {ε α : Type} [DecidableEq ε] [DecidableEq α] :
    DecidableEq (Except ε α)
  | .ok a, .ok b =>
    if h : a = b then .isTrue (by rw [h]) else .isFalse (by intro hc; cases hc; exact h rfl)
  | .ok _, .error _ => .isFalse (by intro hc; cases hc)
  | .error _, .ok _ => .isFalse (by intro hc; cases hc)
  | .error a, .error b =>
    if h : a = b then .isTrue (by rw [h]) else .isFalse (by intro hc; cases hc; exact h rfl)

/-- The persistent world the cache gate and builder touch: the set of Qdrant
collections, the set of existing persist directories, and the `meta.json`
content per persist directory (`Except.error` models a file whose JSON fails
to parse). -/
structure Store where
  collections : List String
  dirs : List String
  metas : List (String × Except Unit Meta)
deriving DecidableEq, Repr

/-- `helper.load_metadata`: `none` when `meta.json` is absent; a parse
failure propagates (`json.loads` raises). -/
def load_metadata (store : Store) (dir : String) : Except Unit (Option Meta) :=
  match store.metas.find? (fun p => p.1 == dir) with
  | none => .ok none
  | some (_, .ok m) => .ok (some m)
  | some (_, .error e) => .error e

/-- `helper.save_metadata`: create the directory and overwrite `meta.json`
wholesale. -/
def save_metadata (store : Store) (dir : String) (m : Meta) : Store :=
  { store with
    dirs := if store.dirs.contains dir then store.dirs else dir :: store.dirs,
    metas := (dir, .ok m) :: store.metas.filter (fun p => !(p.1 == dir)) }

/-- The four-field comparison at the end of `helper.is_index_valid`. -/
def metaMatches (saved cur : Meta) : Bool :=
  decide (saved.pdf_fingerprint = cur.pdf_fingerprint) &&
  decide (saved.chunk_size = cur.chunk_size) &&
  decide (saved.chunk_overlap = cur.chunk_overlap) &&
  decide (saved.embedding_model = cur.embedding_model)

/-- `helper.is_index_valid`: directory exists, collection listed, descriptor
present and parseable, all four parameters match. -/
def is_index_valid (hash : List Nat → String) (store : Store)
    (collection_name dir : String) (f : FileState)
    (cs co : Nat) (em : String) : Except Unit Bool :=
  if !(store.dirs.contains dir) then .ok false
  else if !(store.collections.contains collection_name) then .ok false
  else
    match load_metadata store dir with
    | .error e => .error e
    | .ok none => .ok false
    | .ok (some m) => .ok (metaMatches m (get_index_metadata hash f cs co em))

/-- `helper.generate_collection_name`: `"pdf_" + fingerprint.sha256[:24]`. -/
def generate_collection_name (hash : List Nat → String) (f : FileState) : String :=
  "pdf_" ++ (file_fingerprint hash f).sha256.take 24

/-- `INDEX_ROOT / collection_name` as used in `check_cache_node`. -/
def persist_dir_for (hash : List Nat → String) (f : FileState) : String :=
  ".indices/" ++ generate_collection_name hash f

/-- The partial state update returned by `utils.check_cache_node`. -/
structure CacheCheck where
  collection_name : String
  persist_dir : String
  cache_hit : Bool
  step : String
deriving DecidableEq, Repr

/-- `utils.check_cache_node`: derive the collection name and persist
directory from the document fingerprint and combine `is_index_valid` with
`not force_rebuild`. -/
def check_cache_node (hash : List Nat → String) (store : Store) (f : FileState)
    (cs co : Nat) (em : String) (force_rebuild : Bool) : Except Unit CacheCheck :=
  match is_index_valid hash store (generate_collection_name hash f)
      (".indices/" ++ generate_collection_name hash f) f cs co em with
  | .error e => .error e
  | .ok valid =>
    .ok { collection_name := generate_collection_name hash f,
          persist_dir := ".indices/" ++ generate_collection_name hash f,
          cache_hit := valid && !force_rebuild,
          step := if valid && !force_rebuild then "✓ Found valid cached index"
                  else "✗ No valid cache found" }

/-! ## Index builder (`helper.build_qdrant_vectorstore`,
`utils.build_index_node`) -/

/-- `helper.build_qdrant_vectorstore`: delete any collection with the target
name, create a fresh one, then add the documents.  `add_ok` models whether
`vectorstore.add_documents` succeeds; the returned store reflects the
mutations performed before a failure, and the flag reports success. -/
def build_qdrant_vectorstore (store : Store) (collection_name : String)
    (add_ok : Bool) : Store × Bool :=
  let created := { store with
    collections := collection_name :: store.collections.erase collection_name }
  (created, add_ok)

/-- `utils.build_index_node`: build the vectorstore, then (only on success)
persist the descriptor with the collection name recorded. -/
def build_index_node (hash : List Nat → String) (store : Store) (f : FileState)
    (collection_name dir : String) (cs co : Nat) (em : String)
    (add_ok : Bool) : Store × Bool :=
  let built := build_qdrant_vectorstore store collection_name add_ok
  if built.2 then
    let meta := { get_index_metadata hash f cs co em with
                  collection_name := some collection_name }
    (save_metadata built.1 dir meta, true)
  else (built.1, false)

/-! ## Router (`agent_router.route_to_agent`,
`integrated_workflow.route_after_classification`) -/

/-- The fixed keyword list of `route_to_agent`. -/
def weather_keywords : List String :=
  ["weather", "temperature", "rain", "climate", "humidity", "forecast"]

/-- `any(word in question.lower() for word in weather_keywords)`. -/
def weather_check (question : String) : Bool :=
  weather_keywords.any (fun w => hasSub w.data (lowerStr question).data)

/-- `agent_router.route_to_agent`.  `classify` is the outcome of the LLM
classification call (raw message content, or a raised exception);
`extract_contexts` is the outcome of `extract_all_pdf_contexts` (summary
text, or a raised exception — the call site has no handler for it).  The
classifier output is stripped, lowercased, and coerced into
`{rag, weather, unknown}`. -/
def route_to_agent (classify : Except Unit String)
    (extract_contexts : Except Unit String)
    (question : String) (pdf_available : Bool) : Except Unit String :=
  if weather_check question then .ok "weather"
  else
    match (if pdf_available then extract_contexts else .ok "") with
    | .error e => .error e
    | .ok pdf_context =>
      if pdf_context == "" then .ok "unknown"
      else
        match classify with
        | .ok content =>
          let category := lowerStr (stripStr content)
          .ok (if memStr category ["rag", "weather", "unknown"] then category
               else "unknown")
        | .error _ => .ok "unknown"

/-- `integrated_workflow.route_after_classification`. -/
def route_after_classification (agent_type : String)
    (pdf_path : Option String) : String :=
  if agent_type == "weather" then "weather"
  else if agent_type == "rag" then
    (if !(optStrTruthy pdf_path) then "unknown" else "check_cache")
  else "unknown"

/-! ## Weather handler (`weather_nodes.weather_node`,
`weather_agent.fetch_weather_data`, `weather_agent.format_weather_answer`) -/

/-- A well-formed OpenWeather payload as consumed by the handler
(`main.temp`, `main.feels_like`, `main.humidity`, `weather[0].description`,
`wind.speed`). -/
structure WeatherData where
  temp : Int
  feels_like : Int
  humidity : Nat
  description : String
  wind_speed : Int
deriving DecidableEq, Repr

/-- `weather_agent.fetch_weather_data`: guard on an empty city, then call the
HTTP API; `net` models the request, returning `none` on a non-200 status or
a raised exception. -/
def fetch_weather_data (net : String → Option String → Option WeatherData)
    (city : String) (st : Option String) : Option WeatherData :=
  if city == "" then none else net city st

/-- `weather_agent.format_weather_answer` on a well-formed payload. -/
def format_weather_answer (wd : WeatherData) (city : String) : String :=
  "🌤️ **Weather in " ++ titleStr city ++ "**\n\n**Temperature:** " ++
  toString wd.temp ++ "°C (Feels like " ++ toString wd.feels_like ++
  "°C)\n**Condition:** " ++ titleStr wd.description ++ "\n**Humidity:** " ++
  toString wd.humidity ++ "%\n**Wind Speed:** " ++ toString wd.wind_speed ++
  " m/s\n\nHave a great day! 🌈"

/-- The clarification answer of the no-city branch of `weather_node`. -/
def no_city_answer : String :=
  "I couldn\x27t identify a city from your question. Please specify a city name.\n\n**Example:** \x27What\x27s the weather in Mumbai?\x27 or \x27Temperature in Pune, Maharashtra?\x27"

/-- The partial state update returned by `weather_node` (answer, the
`metadata` dict fields, and the step trace). -/
structure WeatherResult where
  answer : String
  success : Option Bool
  city : Option String
  state : Option String
  weather_data : Option WeatherData
  steps : List String
deriving DecidableEq, Repr

/-- `weather_nodes.weather_node`.  `loc` is the parsed output of
`extract_location_from_query` (already `{city: None, state: None}` on a
JSON-parse failure); `net` models the weather HTTP request. -/
def weather_node (loc : Option String × Option String)
    (net : String → Option String → Option WeatherData) : WeatherResult :=
  if optStrTruthy loc.1 then
    let city := loc.1.getD ""
    let state_name := loc.2
    match fetch_weather_data net city state_name with
    | none =>
      let location_str :=
        if optStrTruthy state_name then city ++ ", " ++ state_name.getD ""
        else city
      { answer := "Sorry, couldn\x27t fetch weather data for " ++ location_str ++
          ". Please check the city/state name and try again.",
        success := some false, city := some city, state := state_name,
        weather_data := none,
        steps := ["❌ Weather API failed for " ++ location_str] }
    | some wd =>
      { answer := format_weather_answer wd city,
        success := some true, city := some city, state := state_name,
        weather_data := some wd,
        steps := ["✓ Fetched weather for " ++ city ++
          (if optStrTruthy state_name then ", " ++ state_name.getD "" else "")] }
  else
    { answer := no_city_answer, success := some false, city := none,
      state := none, weather_data := none,
      steps := ["❌ No city found in query"] }

/-- The static answer of `weather_nodes.unknown_node`. -/
def unknown_answer (pdf_path : Option String) : String :=
  let pdf_status := if optStrTruthy pdf_path then "✓ PDF loaded" else "✗ No PDF"
  "I can help you with:\n\n1. 📄 **Document Questions** - Ask about your uploaded PDF\n   Status: " ++
  pdf_status ++
  "\n   \n2. 🌤️ **Weather Information** - Get weather for any city\n   Example: \"What\x27s the weather in Mumbai?\"\n\nPlease ask a question in one of these categories!"

/-! ## Integrated workflow (`integrated_workflow.build_integrated_workflow`,
`integrated_app.IntegratedApp.query`) -/

/-- The external collaborators and their outcomes for one request, as
observed at the call sites of the workflow nodes. -/
structure Collab where
  hash : List Nat → String
  classify : Except Unit String
  extract_contexts : Except Unit String
  extract_location : Option String × Option String
  net : String → Option String → Option WeatherData
  load_pdf : Except Unit Nat
  split_count : Nat
  add_ok : Bool
  retrieve : Except Unit (List String)
  generate : Except Unit String

/-- The structured result a completed workflow run returns to the caller:
answer, step trace, and the `metadata` fields read by the frontends. -/
structure RunResult where
  answer : String
  steps : List String
  success : Option Bool
  agent : Option String
deriving Repr

/-- The workflow after the router node: `route_after_classification`
dispatches to the weather handler, the fallback handler, or the RAG
sub-pipeline (cache check, then load-index or ingest/split/build, then
retrieve and generate).  Stage failures (`Except.error`) propagate — no node
wraps its body in a handler. -/
def dispatch_after_router (c : Collab) (store : Store) (f : FileState)
    (agent_type : String) (pdf_path : Option String)
    (cs co : Nat) (em : String) (force_rebuild : Bool) : Except Unit RunResult :=
  let step0 := "🧭 Routed to: " ++ upperStr agent_type ++ " agent"
  match route_after_classification agent_type pdf_path with
  | "weather" =>
    let r := weather_node c.extract_location c.net
    .ok { answer := r.answer, steps := step0 :: r.steps,
          success := r.success, agent := some "weather" }
  | "check_cache" =>
    (match check_cache_node c.hash store f cs co em force_rebuild with
    | .error e => .error e
    | .ok cc =>
      if cc.cache_hit then
        match c.retrieve with
        | .error e => .error e
        | .ok docs =>
          match c.generate with
          | .error e => .error e
          | .ok answer =>
            .ok { answer := answer,
                  steps := [step0, cc.step, "⚡ Loaded cached index (fast path)",
                    "✓ Retrieved " ++ toString docs.length ++ " relevant chunks",
                    "✓ Generated answer"],
                  success := none, agent := none }
      else
        match c.load_pdf with
        | .error e => .error e
        | .ok pages =>
          let built := build_index_node c.hash store f cc.collection_name
            cc.persist_dir cs co em c.add_ok
          if built.2 then
            match c.retrieve with
            | .error e => .error e
            | .ok docs =>
              match c.generate with
              | .error e => .error e
              | .ok answer =>
                .ok { answer := answer,
                      steps := [step0, cc.step,
                        "✓ Loaded PDF (" ++ toString pages ++ " pages)",
                        "✓ Split into " ++ toString c.split_count ++ " chunks",
                        "✓ Built and saved new Qdrant index",
                        "✓ Retrieved " ++ toString docs.length ++ " relevant chunks",
                        "✓ Generated answer"],
                      success := none, agent := none }
          else .error ())
  | _ =>
    .ok { answer := unknown_answer pdf_path,
          steps := [step0, "❓ Unknown query type"],
          success := none, agent := some "unknown" }

/-- `IntegratedApp.query`: invoke the workflow — router node first
(`pdf_available = bool(pdf_path)`), then the conditional dispatch.  The
method installs no exception handler, so a failing stage propagates. -/
def integrated_query (c : Collab) (store : Store) (f : FileState)
    (question : String) (pdf_path : Option String)
    (cs co : Nat) (em : String) (force_rebuild : Bool) : Except Unit RunResult :=
  match route_to_agent c.classify c.extract_contexts question (optStrTruthy pdf_path) with
  | .error e => .error e
  | .ok agent_type =>
    dispatch_after_router c store f agent_type pdf_path cs co em force_rebuild

/-! ## Concrete sample inputs -/

/-- An injective stand-in for the SHA-256 hex digest. -/
def hash0 : List Nat → String := fun content => toString content

/-- A sample document: bytes `[0]`, one byte, mtime `0`, no fingerprint
cache file. -/
def f0 : FileState := { content := [0], size := 1, mtime := 0, cache := none }

/-- The empty persistent store. -/
def store0 : Store := { collections := [], dirs := [], metas := [] }

/-- The cache-check result on the empty store with `force_rebuild = true`. -/
def r0 : CacheCheck :=
  { collection_name := "pdf_[0]", persist_dir := ".indices/pdf_[0]",
    cache_hit := false, step := "✗ No valid cache found" }

/-- The fingerprint persisted by the cache file before the content change:
the fingerprint of `f0` (bytes `[0]`). -/
def staleFp : Fingerprint :=
  { sha256 := hash0 [0], size := 1, mtime := 0, quick_key := quickKey 1 0 }

/-- The document after its bytes changed from `[0]` to `[1]` while size and
modification time were synthetically preserved, with the fingerprint cache
file still holding `staleFp`. -/
def f2 : FileState := { content := [1], size := 1, mtime := 0, cache := some staleFp }

/-- The store produced by a successful build against the original bytes. -/
def store2 : Store :=
  (build_index_node hash0 store0 f0 "pdf_[0]" ".indices/pdf_[0]" 1000 150 "m" true).1

/-- The store after a successful build of `f0` with parameters
`(1000, 150, "m")`. -/
def store7 : Store :=
  (build_index_node hash0 store0 f0 "pdf_[0]" ".indices/pdf_[0]" 1000 150 "m" true).1

/-- The outcome of a failed rebuild (the backend raises while adding
documents after the collection was recreated) over that store. -/
def out7 : Store × Bool :=
  build_index_node hash0 store7 f0 "pdf_[0]" ".indices/pdf_[0]" 1000 150 "m" false

/-- A fixed bundle of collaborators used for concrete workflow runs. -/
def collab0 : Collab :=
  { hash := hash0, classify := .ok "rag", extract_contexts := .ok "ctx",
    extract_location := (none, none), net := fun _ _ => none,
    load_pdf := .ok 3, split_count := 5, add_ok := true,
    retrieve := .ok ["chunk"], generate := .ok "ans" }

/-- A weather request whose HTTP fetch always fails. -/
def netFail : String → Option String → Option WeatherData := fun _ _ => none

/-- A sample successful weather payload. -/
def wd0 : WeatherData :=
  { temp := 25, feels_like := 27, humidity := 60, description := "clear sky",
    wind_speed := 3 }

/-- A weather request whose HTTP fetch always succeeds with `wd0`. -/
def netOk : String → Option String → Option WeatherData := fun _ _ => some wd0

/-- A store whose `meta.json` for the derived persist directory of `f0`
contains invalid JSON (the parse raises), while the collection itself
exists. -/
def store_bad : Store :=
  { collections := ["pdf_[0]"], dirs := [".indices/pdf_[0]"],
    metas := [(".indices/pdf_[0]", .error ())] }

/-- A collaborator bundle whose document-context derivation raises. -/
def collab_ctxfail : Collab :=
  { collab0 with extract_contexts := .error () }

/-! ## Supporting lemmas -/

/-- A list starts with itself followed by anything. -/
theorem leadsWith_append_self (n t : List Char) : leadsWith n (n ++ t) = true := by
  induction n with
  | nil => rfl
  | cons a as ih => simp [leadsWith, ih]

/-- The empty needle is a substring of everything. -/
theorem hasSub_nil (h : List Char) : hasSub [] h = true := by
  cases h with
  | nil => rfl
  | cons c t => simp [hasSub, leadsWith]

/-- Substring containment is stable under extending the haystack on the
left by one character. -/
theorem hasSub_cons_of_hasSub (n : List Char) (c : Char) (t : List Char)
    (h : hasSub n t = true) : hasSub n (c :: t) = true := by
  simp [hasSub, h]

/-- A needle is a substring of any haystack that places it between a prefix
and a suffix. -/
theorem hasSub_sandwich (n pre t : List Char) : hasSub n (pre ++ (n ++ t)) = true := by
  induction pre with
  | nil =>
    cases n with
    | nil => exact hasSub_nil t
    | cons a as =>
      show hasSub (a :: as) (a :: (as ++ t)) = true
      simp only [hasSub, Bool.or_eq_true]
      exact Or.inl (leadsWith_append_self (a :: as) t)
  | cons c pres ih =>
    simp only [List.cons_append]
    exact hasSub_cons_of_hasSub _ _ _ ih

/-- Substring containment via an explicit decomposition of the haystack. -/
theorem hasSub_of_parts (n hay pre t : List Char) (h : hay = pre ++ (n ++ t)) :
    hasSub n hay = true := by
  rw [h]
  exact hasSub_sandwich n pre t

/-- String append acts as list append on the underlying character data. -/
theorem strData_append (a b : String) : (a ++ b).data = a.data ++ b.data := rfl

/-- The fingerprint returned by `file_fingerprint` always carries the
current quick key. -/
theorem file_fingerprint_quick_key (hash : List Nat → String) (f : FileState) :
    (file_fingerprint hash f).quick_key = quickKey f.size f.mtime := by
  unfold file_fingerprint
  cases hc : f.cache with
  | none => rfl
  | some cached =>
    by_cases h : cached.quick_key = quickKey f.size f.mtime
    · simp [h]
    · simp [h, freshFingerprint]

/-- When the cache file holds an entry whose quick key matches, that entry
is returned unchanged. -/
theorem file_fingerprint_of_cached (hash : List Nat → String) (g : FileState)
    (fp : Fingerprint) (hc : g.cache = some fp)
    (hq : fp.quick_key = quickKey g.size g.mtime) :
    file_fingerprint hash g = fp := by
  unfold file_fingerprint
  rw [hc]
  simp [hq]

/-- Recomputing a fingerprint right after the cache-file write of
`file_fingerprint_step` returns the same fingerprint. -/
theorem file_fingerprint_stable (hash : List Nat → String) (f : FileState) :
    file_fingerprint hash ((file_fingerprint_step hash f).2) = file_fingerprint hash f := by
  apply file_fingerprint_of_cached hash _ _ rfl
  exact file_fingerprint_quick_key hash f

/-- Characterization of the boolean computed by `is_index_valid`. -/
theorem is_index_valid_ok_iff (hash : List Nat → String) (store : Store)
    (name dir : String) (f : FileState) (cs co : Nat) (em : String) (v : Bool)
    (h : is_index_valid hash store name dir f cs co em = .ok v) :
    v = true ↔
      (store.dirs.contains dir = true ∧
       store.collections.contains name = true ∧
       ∃ m, load_metadata store dir = .ok (some m) ∧
         m.pdf_fingerprint = file_fingerprint hash f ∧
         m.chunk_size = cs ∧ m.chunk_overlap = co ∧ m.embedding_model = em) := by
  unfold is_index_valid at h
  by_cases hd : store.dirs.contains dir = true
  · rw [hd] at h
    simp only [Bool.not_true, Bool.false_eq_true, if_false] at h
    by_cases hc : store.collections.contains name = true
    · rw [hc] at h
      simp only [Bool.not_true, Bool.false_eq_true, if_false] at h
      cases hm : load_metadata store dir with
      | error e => rw [hm] at h; cases h
      | ok mo =>
        rw [hm] at h
        cases mo with
        | none =>
          cases h
          simp only [Bool.false_eq_true, false_iff]
          rintro ⟨-, -, m, hmm, -⟩
          simp at hmm
        | some m =>
          cases h
          constructor
          · intro hv
            refine ⟨hd, hc, m, rfl, ?_⟩
            simp only [metaMatches, Bool.and_eq_true, decide_eq_true_eq,
              get_index_metadata] at hv
            exact ⟨hv.1.1.1, hv.1.1.2, hv.1.2, hv.2⟩
          · rintro ⟨-, -, m', hm', h1, h2, h3, h4⟩
            injection hm' with hmo
            injection hmo with hme
            cases hme
            simp only [metaMatches, Bool.and_eq_true, decide_eq_true_eq,
              get_index_metadata]
            exact ⟨⟨⟨h1, h2⟩, h3⟩, h4⟩
    · simp only [Bool.not_eq_true] at hc
      rw [hc] at h
      simp only [Bool.not_false, if_true] at h
      cases h
      simp only [Bool.false_eq_true, false_iff]
      rintro ⟨-, hcc, -⟩
      rw [hc] at hcc
      cases hcc
  · simp only [Bool.not_eq_true] at hd
    rw [hd] at h
    simp only [Bool.not_false, if_true] at h
    cases h
    simp only [Bool.false_eq_true, false_iff]
    rintro ⟨hdd, -⟩
    rw [hd] at hdd
    cases hdd

/-- C1: the cache gate reports HIT exactly when `force_rebuild` is false, the
persist directory and descriptor exist, the index store lists the derived
collection, and the descriptor's fingerprint, chunk size, chunk overlap and
embedding model all equal the current request's values (the fingerprint being
the one the fingerprint service computes for the current document).  In
particular `force_rebuild = true` forces a MISS, and a descriptor differing
in chunk size, overlap, or embedding model forces a MISS. -/
theorem cache_gate_hit_characterization (hash : List Nat → String)
    (store : Store) (f : FileState) (cs co : Nat) (em : String) (force : Bool)
    (r : CacheCheck)
    (h : check_cache_node hash store f cs co em force = .ok r) :
    (r.cache_hit = true ↔
      (force = false ∧
       store.dirs.contains (persist_dir_for hash f) = true ∧
       store.collections.contains (generate_collection_name hash f) = true ∧
       ∃ m, load_metadata store (persist_dir_for hash f) = .ok (some m) ∧
         m.pdf_fingerprint = file_fingerprint hash f ∧
         m.chunk_size = cs ∧ m.chunk_overlap = co ∧ m.embedding_model = em)) ∧
    (force = true → r.cache_hit = false) ∧
    (∀ m, load_metadata store (persist_dir_for hash f) = .ok (some m) →
      (m.chunk_size ≠ cs ∨ m.chunk_overlap ≠ co ∨ m.embedding_model ≠ em) →
      r.cache_hit = false) := by
  revert h
  unfold check_cache_node
  cases hiv : is_index_valid hash store (generate_collection_name hash f)
      (".indices/" ++ generate_collection_name hash f) f cs co em with
  | error e => intro h; cases h
  | ok v =>
    intro h
    injection h with h
    subst h
    have hv := is_index_valid_ok_iff hash store _ _ f cs co em v hiv
    simp only [persist_dir_for]
    refine ⟨?_, ?_, ?_⟩
    · show (v && !force) = true ↔ _
      simp only [Bool.and_eq_true, Bool.not_eq_true']
      constructor
      · rintro ⟨h1, h2⟩
        exact ⟨h2, (hv.mp h1).1, (hv.mp h1).2.1, (hv.mp h1).2.2⟩
      · rintro ⟨h1, h2, h3, h4⟩
        exact ⟨hv.mpr ⟨h2, h3, h4⟩, h1⟩
    · intro hf
      show (v && !force) = false
      simp only [hf, Bool.not_true, Bool.and_false]
    · intro m hm hne
      show (v && !force) = false
      cases hvb : v with
      | false => simp
      | true =>
        exfalso
        obtain ⟨-, -, m', hm', -, h2, h3, h4⟩ := hv.mp hvb
        rw [hm] at hm'
        injection hm' with hmo
        injection hmo with hme
        cases hme
        rcases hne with hne | hne | hne
        · exact hne h2
        · exact hne h3
        · exact hne h4

/-- Witness for the cache-gate characterization at a concrete input. -/
theorem cache_gate_hit_characterization_witness :
    ((r0.cache_hit = true ↔
      (true = false ∧
       store0.dirs.contains (persist_dir_for hash0 f0) = true ∧
       store0.collections.contains (generate_collection_name hash0 f0) = true ∧
       ∃ m, load_metadata store0 (persist_dir_for hash0 f0) = .ok (some m) ∧
         m.pdf_fingerprint = file_fingerprint hash0 f0 ∧
         m.chunk_size = 1000 ∧ m.chunk_overlap = 150 ∧ m.embedding_model = "m")) ∧
    (true = true → r0.cache_hit = false) ∧
    (∀ m, load_metadata store0 (persist_dir_for hash0 f0) = .ok (some m) →
      (m.chunk_size ≠ 1000 ∨ m.chunk_overlap ≠ 150 ∨ m.embedding_model ≠ "m") →
      r0.cache_hit = false)) :=
  cache_gate_hit_characterization hash0 store0 f0 1000 150 "m" true r0 (by decide)

/-- Counterexample to C2: after a content change that preserves the quick
key, `file_fingerprint` returns the stale cached hash (the hash of the old
bytes), not the hash of the current content, and the validity check then
reports HIT, not MISS. -/
theorem fingerprint_stale_quick_key_counterexample :
    f2.content ≠ f0.content ∧
    file_fingerprint hash0 f2 = staleFp ∧
    staleFp.sha256 = hash0 f0.content ∧
    (file_fingerprint hash0 f2).sha256 ≠ hash0 f2.content ∧
    check_cache_node hash0 store2 f2 1000 150 "m" false =
      .ok { collection_name := "pdf_[0]", persist_dir := ".indices/pdf_[0]",
            cache_hit := true, step := "✓ Found valid cached index" } := by
  refine ⟨by decide, by decide, by decide, by decide, by decide⟩

/-- C2 amended: `file_fingerprint` returns the cached entry verbatim
whenever the cached quick key equals the current `(size, mtime)` quick key,
without reading the content; only when the cache is absent or the quick key
differs does it hash the current bytes.  A content change that preserves
size and mtime is therefore not detected. -/
theorem fingerprint_quick_key_shortcut (hash : List Nat → String) (f : FileState) :
    (∀ c, f.cache = some c → c.quick_key = quickKey f.size f.mtime →
      file_fingerprint hash f = c) ∧
    (∀ c, f.cache = some c → c.quick_key ≠ quickKey f.size f.mtime →
      file_fingerprint hash f = freshFingerprint hash f) ∧
    (f.cache = none → file_fingerprint hash f = freshFingerprint hash f) := by
  refine ⟨?_, ?_, ?_⟩
  · intro c hc hq
    exact file_fingerprint_of_cached hash f c hc hq
  · intro c hc hq
    unfold file_fingerprint
    rw [hc]
    simp [hq]
  · intro hc
    unfold file_fingerprint
    rw [hc]

/-- Witness for the quick-key shortcut behavior at concrete inputs. -/
theorem fingerprint_quick_key_shortcut_witness :
    file_fingerprint hash0 f2 = staleFp ∧
    file_fingerprint hash0 f0 = freshFingerprint hash0 f0 :=
  ⟨(fingerprint_quick_key_shortcut hash0 f2).1 staleFp rfl (by decide),
   (fingerprint_quick_key_shortcut hash0 f0).2.2 rfl⟩

/-- C3: a question whose lowercase form contains a weather keyword is routed
to `weather` immediately, for any document availability and any behavior of
the context summarizer and the classifier (including failing ones). -/
theorem weather_keyword_routes_weather
    (classify extract_contexts : Except Unit String) (question : String)
    (pdf_available : Bool) (h : weather_check question = true) :
    route_to_agent classify extract_contexts question pdf_available =
      .ok "weather" := by
  unfold route_to_agent
  rw [h]
  rfl

/-- Witness: a concrete weather question routed to `weather` even with
failing collaborators and no document. -/
theorem weather_keyword_routes_weather_witness :
    weather_check "Will it rain tomorrow?" = true ∧
    route_to_agent (.error ()) (.error ()) "Will it rain tomorrow?" false =
      .ok "weather" :=
  ⟨by decide,
   weather_keyword_routes_weather (.error ()) (.error ()) "Will it rain tomorrow?"
     false (by decide)⟩

/-- Counterexample to C4: with a document available, a failure inside the
document-context derivation propagates out of the router instead of being
downgraded to `unknown`. -/
theorem router_context_failure_counterexample :
    route_to_agent (.ok "rag") (.error ()) "tell me about dogs" true =
      .error () := by decide

/-- C4 amended: the router coerces classifier failures and out-of-domain
classifier outputs to `unknown`, and returns `unknown` when no document is
available or the derived context is empty — but a failure while deriving the
document context propagates as an exception. -/
theorem router_failure_handling
    (classify extract_contexts : Except Unit String) (question ctx content : String)
    (hw : weather_check question = false) :
    (route_to_agent classify extract_contexts question false = .ok "unknown") ∧
    (extract_contexts = .ok "" →
      route_to_agent classify extract_contexts question true = .ok "unknown") ∧
    (extract_contexts = .ok ctx → (ctx == "") = false → classify = .error () →
      route_to_agent classify extract_contexts question true = .ok "unknown") ∧
    (extract_contexts = .ok ctx → (ctx == "") = false → classify = .ok content →
      memStr (lowerStr (stripStr content)) ["rag", "weather", "unknown"] = false →
      route_to_agent classify extract_contexts question true = .ok "unknown") ∧
    (extract_contexts = .error () →
      route_to_agent classify extract_contexts question true = .error ()) := by
  unfold route_to_agent
  rw [hw]
  refine ⟨rfl, ?_, ?_, ?_, ?_⟩
  · intro he
    rw [he]
    simp
  · intro he hc hcl
    rw [he, hcl]
    simp [hc]
  · intro he hc hcl hmem
    rw [he, hcl]
    simp [hc, hmem]
  · intro he
    rw [he]
    simp

/-- Witness: concrete coercions to `unknown` and a concrete propagated
context failure. -/
theorem router_failure_handling_witness :
    route_to_agent (.ok "rag") (.ok "ctx") "tell me about dogs" false = .ok "unknown" ∧
    route_to_agent (.error ()) (.ok "ctx") "tell me about dogs" true = .ok "unknown" ∧
    route_to_agent (.ok "chitchat") (.ok "ctx") "tell me about dogs" true = .ok "unknown" ∧
    route_to_agent (.ok "rag") (.error ()) "tell me about dogs" true = .error () :=
  ⟨(router_failure_handling (.ok "rag") (.ok "ctx") "tell me about dogs" "ctx" "x"
      (by decide)).1,
   (router_failure_handling (.error ()) (.ok "ctx") "tell me about dogs" "ctx" "x"
      (by decide)).2.2.1 rfl (by decide) rfl,
   (router_failure_handling (.ok "chitchat") (.ok "ctx") "tell me about dogs" "ctx"
      "chitchat" (by decide)).2.2.2.1 rfl (by decide) rfl (by decide),
   (router_failure_handling (.ok "rag") (.error ()) "tell me about dogs" "ctx" "x"
      (by decide)).2.2.2.2 rfl⟩

/-- C10: the weather-keyword test is plain substring containment on the
lowercased question, so questions containing a keyword only as a fragment of
a longer word ("brain", "training" contain "rain") are routed to `weather`
for every classifier, every context summarizer, and every document
availability — the classifier is never consulted. -/
theorem weather_fragment_containment_routing :
    hasSub "rain".data (lowerStr "Tell me about the brain").data = true ∧
    hasSub "rain".data (lowerStr "Is model training expensive?").data = true ∧
    (∀ (classify extract_contexts : Except Unit String) (pdf_available : Bool),
      route_to_agent classify extract_contexts "Tell me about the brain"
        pdf_available = .ok "weather") ∧
    (∀ (classify extract_contexts : Except Unit String) (pdf_available : Bool),
      route_to_agent classify extract_contexts "Is model training expensive?"
        pdf_available = .ok "weather") := by
  have h1 : weather_check "Tell me about the brain" = true := by decide
  have h2 : weather_check "Is model training expensive?" = true := by decide
  refine ⟨by decide, by decide, ?_, ?_⟩
  · intro classify extract_contexts pdf_available
    unfold route_to_agent
    rw [h1]
    rfl
  · intro classify extract_contexts pdf_available
    unfold route_to_agent
    rw [h2]
    rfl

/-- A freshly consed element is contained in the list. -/
theorem contains_cons_self (x : String) (l : List String) :
    (x :: l).contains x = true := by
  simp [List.contains_cons]

/-- After `save_metadata`, the persist directory exists. -/
theorem save_metadata_dir_exists (store : Store) (dir : String) (m : Meta) :
    (save_metadata store dir m).dirs.contains dir = true := by
  unfold save_metadata
  by_cases h : dir ∈ store.dirs
  · simp [h]
  · simp [h]

/-- After `save_metadata`, reading the descriptor back returns exactly the
record just written. -/
theorem load_metadata_save (store : Store) (dir : String) (m : Meta) :
    load_metadata (save_metadata store dir m) dir = .ok (some m) := by
  unfold load_metadata save_metadata
  simp [List.find?_cons_of_pos]

/-- `save_metadata` leaves the collection list untouched. -/
theorem save_metadata_collections (store : Store) (dir : String) (m : Meta) :
    (save_metadata store dir m).collections = store.collections := rfl

/-- C5: a successful fresh build (which persists the descriptor), followed
immediately by a validity check on the same document with the same
parameters and `force_rebuild = false`, returns HIT.  The check runs on the
document state as left by the build's fingerprint computation
(`file_fingerprint_step`). -/
theorem build_then_check_hits (hash : List Nat → String) (store : Store)
    (f : FileState) (cs co : Nat) (em : String) :
    (build_index_node hash store f (generate_collection_name hash f)
        (persist_dir_for hash f) cs co em true).2 = true ∧
    check_cache_node hash
      (build_index_node hash store f (generate_collection_name hash f)
          (persist_dir_for hash f) cs co em true).1
      ((file_fingerprint_step hash f).2) cs co em false =
      .ok { collection_name := generate_collection_name hash f,
            persist_dir := persist_dir_for hash f, cache_hit := true,
            step := "✓ Found valid cached index" } := by
  have hst : file_fingerprint hash ((file_fingerprint_step hash f).2) =
      file_fingerprint hash f := file_fingerprint_stable hash f
  have hname : generate_collection_name hash ((file_fingerprint_step hash f).2) =
      generate_collection_name hash f := by
    simp only [generate_collection_name, hst]
  refine ⟨rfl, ?_⟩
  have hS : (build_index_node hash store f (generate_collection_name hash f)
      (persist_dir_for hash f) cs co em true).1 =
      save_metadata
        { store with collections :=
            generate_collection_name hash f ::
              store.collections.erase (generate_collection_name hash f) }
        (persist_dir_for hash f)
        { get_index_metadata hash f cs co em with
          collection_name := some (generate_collection_name hash f) } := rfl
  have hiv : is_index_valid hash
      (build_index_node hash store f (generate_collection_name hash f)
          (persist_dir_for hash f) cs co em true).1
      (generate_collection_name hash f)
      (".indices/" ++ generate_collection_name hash f)
      ((file_fingerprint_step hash f).2) cs co em = .ok true := by
    rw [hS]
    unfold is_index_valid
    rw [show (".indices/" ++ generate_collection_name hash f) =
        persist_dir_for hash f from rfl]
    rw [save_metadata_dir_exists]
    rw [show (save_metadata
        { store with collections :=
            generate_collection_name hash f ::
              store.collections.erase (generate_collection_name hash f) }
        (persist_dir_for hash f)
        { get_index_metadata hash f cs co em with
          collection_name := some (generate_collection_name hash f) }).collections =
        generate_collection_name hash f ::
          store.collections.erase (generate_collection_name hash f) from rfl]
    rw [contains_cons_self]
    rw [load_metadata_save]
    simp [metaMatches, get_index_metadata, hst]
  unfold check_cache_node
  rw [hname, hiv]
  rfl

/-- Counterexample to C7: after the failed build the partially created
collection is still present — nothing was rolled back — and the next
validity check for the same document observes a phantom HIT via the
surviving descriptor. -/
theorem build_failure_no_rollback_counterexample :
    out7.2 = false ∧
    out7.1.collections.contains "pdf_[0]" = true ∧
    check_cache_node hash0 out7.1 f0 1000 150 "m" false =
      .ok { collection_name := "pdf_[0]", persist_dir := ".indices/pdf_[0]",
            cache_hit := true, step := "✓ Found valid cached index" } := by
  refine ⟨by decide, by decide, by decide⟩

/-- C7 amended: on a build failure the partially created collection is left
in the store (no rollback), while the descriptor store and directory set are
unchanged — so a pre-existing matching descriptor still validates against
the partial collection. -/
theorem build_failure_leaves_partial_state (hash : List Nat → String)
    (store : Store) (f : FileState) (name dir : String)
    (cs co : Nat) (em : String) :
    (build_index_node hash store f name dir cs co em false).2 = false ∧
    (build_index_node hash store f name dir cs co em false).1.collections.contains
      name = true ∧
    (build_index_node hash store f name dir cs co em false).1.metas = store.metas ∧
    (build_index_node hash store f name dir cs co em false).1.dirs = store.dirs := by
  refine ⟨rfl, ?_, rfl, rfl⟩
  exact contains_cons_self name (store.collections.erase name)

/-- C6: among the three intents, the router edge goes to `unknown` exactly
when the intent is `unknown` or the intent is `rag` with no (truthy)
document reference; and a `rag` classification without a document dispatches
straight to the fallback terminal handler — the returned result is the
fallback result, whose trace shows no cache-check step, for every store and
document state. -/
theorem rag_without_document_goes_unknown :
    (∀ (a : String) (pdf : Option String),
      memStr a ["rag", "weather", "unknown"] = true →
      (route_after_classification a pdf = "unknown" ↔
        (a = "unknown" ∨ (a = "rag" ∧ optStrTruthy pdf = false)))) ∧
    (∀ (c : Collab) (store : Store) (f : FileState) (pdf : Option String)
        (cs co : Nat) (em : String) (force : Bool),
      optStrTruthy pdf = false →
      dispatch_after_router c store f "rag" pdf cs co em force =
        .ok { answer := unknown_answer pdf,
              steps := ["🧭 Routed to: RAG agent", "❓ Unknown query type"],
              success := none, agent := some "unknown" }) := by
  constructor
  · intro a pdf hmem
    simp only [memStr, List.any_cons, List.any_nil, Bool.or_eq_true,
      Bool.or_false, beq_iff_eq] at hmem
    rcases hmem with rfl | rfl | rfl
    · cases hp : optStrTruthy pdf with
      | true => simp [route_after_classification, hp]
      | false => simp [route_after_classification, hp]
    · simp [route_after_classification]
    · simp [route_after_classification]
  · intro c store f pdf cs co em force hp
    unfold dispatch_after_router route_after_classification
    simp only [hp]
    rfl

/-- Witness: the edge predicate at `("rag", no document)` and a concrete
dispatch to the fallback handler. -/
theorem rag_without_document_goes_unknown_witness :
    (route_after_classification "rag" none = "unknown" ↔
      ("rag" = "unknown" ∨ ("rag" = "rag" ∧ optStrTruthy none = false))) ∧
    dispatch_after_router collab0 store0 f0 "rag" none 1000 150 "m" false =
      .ok { answer := unknown_answer none,
            steps := ["🧭 Routed to: RAG agent", "❓ Unknown query type"],
            success := none, agent := some "unknown" } :=
  ⟨rag_without_document_goes_unknown.1 "rag" none (by decide),
   rag_without_document_goes_unknown.2 collab0 store0 f0 none 1000 150 "m" false rfl⟩

/-- C9: the weather handler returns the clarification answer with
`success = false` (and performs no fetch — the result is a constant) when no
city is resolved; on a failed fetch it returns an apology naming the city
(and the state, when present) with `success = false`; on a successful fetch
it returns `success = true` with the raw payload retained. -/
theorem weather_node_outcomes (loc : Option String × Option String)
    (net : String → Option String → Option WeatherData) :
    (optStrTruthy loc.1 = false →
      weather_node loc net =
        { answer := no_city_answer, success := some false, city := none,
          state := none, weather_data := none,
          steps := ["❌ No city found in query"] }) ∧
    (∀ city, loc.1 = some city → optStrTruthy loc.1 = true →
      fetch_weather_data net city loc.2 = none →
      (weather_node loc net).success = some false ∧
      hasSub city.data (weather_node loc net).answer.data = true ∧
      (∀ st, loc.2 = some st →
        hasSub st.data (weather_node loc net).answer.data = true)) ∧
    (∀ city wd, loc.1 = some city → optStrTruthy loc.1 = true →
      fetch_weather_data net city loc.2 = some wd →
      (weather_node loc net).success = some true ∧
      (weather_node loc net).weather_data = some wd) := by
  refine ⟨?_, ?_, ?_⟩
  · intro h
    unfold weather_node
    simp [h]
  · intro city hc ht hf
    have hw : weather_node loc net =
        { answer := "Sorry, couldn\x27t fetch weather data for " ++
            (if optStrTruthy loc.2 then city ++ ", " ++ loc.2.getD "" else city) ++
            ". Please check the city/state name and try again.",
          success := some false, city := some city, state := loc.2,
          weather_data := none,
          steps := ["❌ Weather API failed for " ++
            (if optStrTruthy loc.2 then city ++ ", " ++ loc.2.getD "" else city)] } := by
      unfold weather_node
      rw [ht]
      simp only [if_true]
      rw [hc]
      simp only [Option.getD_some]
      rw [hf]
    rw [hw]
    refine ⟨rfl, ?_, ?_⟩
    · cases hst : optStrTruthy loc.2 with
      | true =>
        simp only [hst, if_true]
        apply hasSub_of_parts _ _ ("Sorry, couldn\x27t fetch weather data for ").data
          ((", " ++ loc.2.getD "" ++ ". Please check the city/state name and try again.").data)
        simp [strData_append]
      | false =>
        simp only [hst, Bool.false_eq_true, if_false]
        apply hasSub_of_parts _ _ ("Sorry, couldn\x27t fetch weather data for ").data
          ((". Please check the city/state name and try again.").data)
        simp [strData_append]
    · intro st hsome
      rw [hsome]
      cases hst : optStrTruthy (some st) with
      | true =>
        simp only [hst, if_true, Option.getD_some]
        apply hasSub_of_parts _ _
          (("Sorry, couldn\x27t fetch weather data for " ++ city ++ ", ").data)
          ((". Please check the city/state name and try again.").data)
        simp [strData_append]
      | false =>
        have hempty : st = "" := by
          unfold optStrTruthy at hst
          simpa using hst
        subst hempty
        simp [hasSub_nil]
  · intro city wd hc ht hf
    unfold weather_node
    rw [ht]
    simp only [if_true]
    rw [hc]
    simp only [Option.getD_some]
    rw [hf]
    exact ⟨rfl, rfl⟩

/-- Witness for the three weather-handler outcomes at concrete inputs. -/
theorem weather_node_outcomes_witness :
    weather_node ((none : Option String), (none : Option String)) netFail =
      { answer := no_city_answer, success := some false, city := none,
        state := none, weather_data := none,
        steps := ["❌ No city found in query"] } ∧
    (weather_node (some "Pune", some "Maharashtra") netFail).success = some false ∧
    hasSub "Pune".data
      (weather_node (some "Pune", some "Maharashtra") netFail).answer.data = true ∧
    hasSub "Maharashtra".data
      (weather_node (some "Pune", some "Maharashtra") netFail).answer.data = true ∧
    (weather_node (some "Pune", some "Maharashtra") netOk).success = some true ∧
    (weather_node (some "Pune", some "Maharashtra") netOk).weather_data = some wd0 :=
  ⟨(weather_node_outcomes (none, none) netFail).1 rfl,
   ((weather_node_outcomes (some "Pune", some "Maharashtra") netFail).2.1 "Pune"
      rfl (by decide) rfl).1,
   ((weather_node_outcomes (some "Pune", some "Maharashtra") netFail).2.1 "Pune"
      rfl (by decide) rfl).2.1,
   ((weather_node_outcomes (some "Pune", some "Maharashtra") netFail).2.1 "Pune"
      rfl (by decide) rfl).2.2 "Maharashtra" rfl,
   ((weather_node_outcomes (some "Pune", some "Maharashtra") netOk).2.2 "Pune"
      wd0 rfl (by decide) rfl).1,
   ((weather_node_outcomes (some "Pune", some "Maharashtra") netOk).2.2 "Pune"
      wd0 rfl (by decide) rfl).2⟩

/-- Counterexample to C8: a `rag`-classified request over a persisted
descriptor holding invalid JSON makes the top-level query raise — the caller
gets an uncaught exception, not a structured result object. -/
theorem query_unhandled_error_counterexample :
    integrated_query collab0 store_bad f0 "summarize the document"
      (some "doc.pdf") 1000 150 "m" false = .error () := rfl

/-- C8 amended: the handled terminal branches (weather, fallback) always
return a structured result, but an unhandled stage error propagates out of
the query: a metadata parse failure in the cache check, a document-load
failure on the miss path, and a router-stage failure each surface as an
exception to the caller, not as a structured error result. -/
theorem query_error_propagation
    (c : Collab) (store : Store) (f : FileState) (question : String)
    (pdf : Option String) (cs co : Nat) (em : String) (force : Bool) :
    (∀ a, route_after_classification a pdf = "weather" →
      dispatch_after_router c store f a pdf cs co em force =
        .ok { answer := (weather_node c.extract_location c.net).answer,
              steps := ("🧭 Routed to: " ++ upperStr a ++ " agent") ::
                (weather_node c.extract_location c.net).steps,
              success := (weather_node c.extract_location c.net).success,
              agent := some "weather" }) ∧
    (∀ a, route_after_classification a pdf = "unknown" →
      dispatch_after_router c store f a pdf cs co em force =
        .ok { answer := unknown_answer pdf,
              steps := [("🧭 Routed to: " ++ upperStr a ++ " agent"),
                "❓ Unknown query type"],
              success := none, agent := some "unknown" }) ∧
    (∀ a, route_after_classification a pdf = "check_cache" →
      check_cache_node c.hash store f cs co em force = .error () →
      dispatch_after_router c store f a pdf cs co em force = .error ()) ∧
    (∀ a cc, route_after_classification a pdf = "check_cache" →
      check_cache_node c.hash store f cs co em force = .ok cc →
      cc.cache_hit = false → c.load_pdf = .error () →
      dispatch_after_router c store f a pdf cs co em force = .error ()) ∧
    (route_to_agent c.classify c.extract_contexts question (optStrTruthy pdf) =
        .error () →
      integrated_query c store f question pdf cs co em force = .error ()) := by
  refine ⟨?_, ?_, ?_, ?_, ?_⟩
  · intro a hr
    unfold dispatch_after_router
    rw [hr]
    rfl
  · intro a hr
    unfold dispatch_after_router
    rw [hr]
    rfl
  · intro a hr hcc
    unfold dispatch_after_router
    rw [hr, hcc]
    rfl
  · intro a cc hr hcc hhit hlp
    unfold dispatch_after_router
    rw [hr, hcc]
    simp only [hhit, Bool.false_eq_true, if_false]
    rw [hlp]
  · intro hre
    unfold integrated_query
    rw [hre]

/-- Witness: a structured fallback result, a propagated metadata-parse
failure, and a propagated router-stage failure, all at concrete inputs. -/
theorem query_error_propagation_witness :
    dispatch_after_router collab0 store0 f0 "unknown" none 1000 150 "m" false =
      .ok { answer := unknown_answer none,
            steps := [("🧭 Routed to: " ++ upperStr "unknown" ++ " agent"),
              "❓ Unknown query type"],
            success := none, agent := some "unknown" } ∧
    dispatch_after_router collab0 store_bad f0 "rag" (some "doc.pdf")
      1000 150 "m" false = .error () ∧
    integrated_query collab_ctxfail store0 f0 "summarize the document"
      (some "doc.pdf") 1000 150 "m" false = .error () :=
  ⟨(query_error_propagation collab0 store0 f0 "q" none 1000 150 "m" false).2.1
      "unknown" rfl,
   (query_error_propagation collab0 store_bad f0 "q" (some "doc.pdf")
      1000 150 "m" false).2.2.1 "rag" rfl rfl,
   (query_error_propagation collab_ctxfail store0 f0 "summarize the document"
      (some "doc.pdf") 1000 150 "m" false).2.2.2.2 rfl⟩

end MultiAgent
